import Mathlib

/-!
Verification of the global meter-provider registry
(`opentelemetry/src/global/metrics.rs`).

The Rust source keeps a process-wide
`OnceLock<RwLock<Arc<dyn MeterProvider + Send + Sync>>>` and exposes
`set_meter_provider`, `meter_provider`, `meter` and `meter_with_scope`.
We embed it shallowly:

* `Arc` allocations are a heap of address/provider pairs; a handle (a clone
  of an `Arc`) is an address into that heap.  `Arc::new` allocates a fresh
  address; `clone` returns the same address.
* The `OnceLock` before its first access is `binding = none`; after lazy
  initialization `binding = some a` where `a` is the address stored in the
  `RwLock` slot.
* The `RwLock` poison flag is the boolean field `poisoned`.
* A Rust panic (the `expect` in `meter_provider`) is `Except.error` carrying
  the panic message; diagnostic macros (`otel_info!` / `otel_error!`) are a
  returned `LogEvent`.

Every operation is a pure function from a `GlobalState` to a result paired
with the successor state.
-/

namespace OTelGlobal

/-- Modelled from the spec (the `InstrumentationScope` type lives outside the
given source tree): "an immutable value object identifying the logical origin
of a meter: a name, optional version, optional schema URL, optional set of
key/value attributes". -/
structure InstrumentationScope where
  name : String
  version : Option String
  schemaUrl : Option String
  attributes : List (String × String)
deriving Repr, DecidableEq

/-- Modelled from the spec (the `Meter` type lives outside the given source
tree): "an opaque value produced by a provider from a name or scope; this core
treats it as an output type it does not inspect".  We give it a single opaque
payload field so that concrete instances compare decidably. -/
structure Meter where
  payload : Nat
deriving Repr, DecidableEq

/-- Modelled from the spec (the `MeterProvider` trait lives outside the given
source tree): the consumed capability "must expose `meter(name) → Meter` and
`meter_with_scope(scope) → Meter`". -/
structure MeterProvider where
  meterFn : String → Meter
  meterWithScopeFn : InstrumentationScope → Meter

/-- Modelled from the spec (`NoopMeterProvider` lives outside the given source
tree): "a provider implementation that discards all requests, used as the safe
default before real configuration occurs". -/
def NoopMeterProvider : MeterProvider :=
  ⟨fun _ => ⟨0⟩, fun _ => ⟨0⟩⟩

/-- A diagnostic event emitted to the external diagnostics sink: the
`otel_info!` / `otel_error!` invocations of the source, with their `name:` and
`message =` payloads. -/
inductive LogEvent where
  | info (name message : String)
  | error (name message : String)
deriving Repr, DecidableEq

/-- The process-wide state behind `GLOBAL_METER_PROVIDER`.

`heap` holds every `Arc<dyn MeterProvider>` allocation made so far (old
entries persist: clones held by callers keep an `Arc` alive); `nextAddr` is
the next fresh allocation address; `binding` is the `OnceLock` content (`none`
before first access, `some a` once the `RwLock` slot holds the `Arc` at
address `a`); `poisoned` is the `RwLock` poison flag. -/
structure GlobalState where
  heap : List (Nat × MeterProvider)
  nextAddr : Nat
  binding : Option Nat
  poisoned : Bool

/-- The state at process start: nothing allocated, `OnceLock` untouched,
lock not poisoned. -/
def initialState : GlobalState := ⟨[], 0, none, false⟩

/-- Dereference an `Arc` handle: look its address up in the allocation heap.
On every reachable state the lookup of a handle that was handed out succeeds
(an `Arc` is always valid). -/
def deref (s : GlobalState) (a : Nat) : Option MeterProvider :=
  s.heap.lookup a

/-- Total dereference used when the embedding calls a method through a handle;
the default branch is never reached on handles that were actually handed out
(see the lookup lemmas below). -/
def derefD (s : GlobalState) (a : Nat) : MeterProvider :=
  (deref s a).getD NoopMeterProvider

/-- `global_meter_provider()` of the source:
`GLOBAL_METER_PROVIDER.get_or_init(|| RwLock::new(Arc::new(NoopMeterProvider::new())))`.
Returns the successor state together with the address currently stored in the
`RwLock` slot; on first access it allocates a fresh `Arc` wrapping the no-op
provider and installs it. -/
def global_meter_provider (s : GlobalState) : GlobalState × Nat :=
  match s.binding with
  | some a => (s, a)
  | none =>
      (⟨(s.nextAddr, NoopMeterProvider) :: s.heap, s.nextAddr + 1,
        some s.nextAddr, s.poisoned⟩, s.nextAddr)

/-- `set_meter_provider` of the source: lazily initialize, take the write
lock; if it is poisoned, emit `MeterProvider.GlobalSetFailed` and leave the
binding untouched; otherwise store `Arc::new(new_provider)` (a fresh
allocation) in the slot and emit `MeterProvider.GlobalSet`. -/
def set_meter_provider (new_provider : MeterProvider) (s : GlobalState) :
    GlobalState × LogEvent :=
  let s1 := (global_meter_provider s).1
  if s1.poisoned then
    (s1, LogEvent.error "MeterProvider.GlobalSetFailed"
      "Global meter provider is not set due to lock poison. Meters created using global::meter() or global::meter_with_scope() will not function.")
  else
    (⟨(s1.nextAddr, new_provider) :: s1.heap, s1.nextAddr + 1,
      some s1.nextAddr, s1.poisoned⟩,
     LogEvent.info "MeterProvider.GlobalSet"
      "Global meter provider is set. Meters can now be created using global::meter() or global::meter_with_scope().")

/-- `meter_provider()` of the source: lazily initialize, take the read lock;
panic (modelled as `Except.error` with the `expect` message) when the lock is
poisoned, otherwise return a clone of the stored handle (the same address). -/
def meter_provider (s : GlobalState) : GlobalState × Except String Nat :=
  let r := global_meter_provider s
  if r.1.poisoned then
    (r.1, Except.error "GLOBAL_METER_PROVIDER RwLock poisoned")
  else
    (r.1, Except.ok r.2)

/-- `meter(name)` of the source: `meter_provider().meter(name)` — fetch the
current provider handle and invoke its meter creation with the name,
propagating the panic of a poisoned read. -/
def meter (name : String) (s : GlobalState) : GlobalState × Except String Meter :=
  match meter_provider s with
  | (s1, Except.ok a) => (s1, Except.ok ((derefD s1 a).meterFn name))
  | (s1, Except.error e) => (s1, Except.error e)

/-- `meter_with_scope(scope)` of the source:
`meter_provider().meter_with_scope(scope)`. -/
def meter_with_scope (scope : InstrumentationScope) (s : GlobalState) :
    GlobalState × Except String Meter :=
  match meter_provider s with
  | (s1, Except.ok a) => (s1, Except.ok ((derefD s1 a).meterWithScopeFn scope))
  | (s1, Except.error e) => (s1, Except.error e)

/-- Spec-side definition for the refinement claim about `meter`, following the
spec sentence "equivalent to `provider().meter(name)` — fetch current
provider, delegate meter creation to it", the name passed through with no
validation or transformation. -/
def meter_spec (name : String) (s : GlobalState) : GlobalState × Except String Meter :=
  let fetched := meter_provider s
  (fetched.1, fetched.2.map (fun a => (derefD fetched.1 a).meterFn name))

/-- Spec-side definition for the delegation claim about `meter_with_scope`,
following the spec sentence "equivalent to `provider().meter_with_scope(scope)`",
the scope value passed to the provider unmodified. -/
def meter_with_scope_spec (scope : InstrumentationScope) (s : GlobalState) :
    GlobalState × Except String Meter :=
  let fetched := meter_provider s
  (fetched.1, fetched.2.map (fun a => (derefD fetched.1 a).meterWithScopeFn scope))

/-- Well-formedness of a state: every allocated address is below `nextAddr`
(freshness of allocation), and a bound address is actually allocated. -/
def WFb (s : GlobalState) : Bool :=
  s.heap.all (fun p => decide (p.1 < s.nextAddr)) &&
    match s.binding with
    | none => true
    | some a => (s.heap.lookup a).isSome

/-- The global binding holds a valid provider handle: it is initialized and
its address dereferences to an allocated provider. -/
def holdsProvider (s : GlobalState) : Bool :=
  match s.binding with
  | none => false
  | some a => (s.heap.lookup a).isSome

/-- A concrete test provider (a "recording" provider distinguishable from the
no-op one), used to instantiate universally quantified claims. -/
def testProvider : MeterProvider :=
  ⟨fun n => ⟨n.length + 1⟩, fun sc => ⟨sc.name.length + 2⟩⟩

/-- A second concrete test provider, distinguishable from the first. -/
def testProvider2 : MeterProvider :=
  ⟨fun n => ⟨n.length + 3⟩, fun sc => ⟨sc.name.length + 4⟩⟩

/-- A reachable initialized, non-poisoned state: the state right after the
lazy first access. -/
def readyState : GlobalState := ⟨[(0, NoopMeterProvider)], 1, some 0, false⟩

/-- An initialized state whose lock has been poisoned by a crashed writer. -/
def poisonedState : GlobalState := ⟨[(0, NoopMeterProvider)], 1, some 0, true⟩

/-! ## Helper lemmas -/

theorem global_meter_provider_of_some (s : GlobalState) (a : Nat)
    (h : s.binding = some a) : global_meter_provider s = (s, a) := by
  simp [global_meter_provider, h]

theorem lookup_cons_self (P : MeterProvider) (l : List (Nat × MeterProvider))
    (a : Nat) : ((a, P) :: l).lookup a = some P := by
  simp [List.lookup]

theorem lookup_cons_of_ne (P : MeterProvider) (l : List (Nat × MeterProvider))
    (a b : Nat) (h : a ≠ b) : ((b, P) :: l).lookup a = l.lookup a := by
  have hb : (a == b) = false := by simpa using h
  simp [List.lookup, hb]

theorem lookup_isSome_lt (l : List (Nat × MeterProvider)) (n a : Nat)
    (hall : l.all (fun p => decide (p.1 < n)) = true)
    (hs : (l.lookup a).isSome = true) : a < n := by
  induction l with
  | nil => simp [List.lookup] at hs
  | cons p t ih =>
      rw [List.all_cons, Bool.and_eq_true] at hall
      by_cases hpa : a = p.1
      · exact hpa ▸ (by simpa using hall.1)
      · rw [lookup_cons_of_ne _ _ _ _ hpa] at hs
        exact ih hall.2 hs

theorem global_meter_provider_poisoned (s : GlobalState) :
    (global_meter_provider s).1.poisoned = s.poisoned := by
  rcases hb : s.binding with _ | a
  · simp [global_meter_provider, hb]
  · rw [global_meter_provider_of_some s a hb]

theorem global_binding_fst (s : GlobalState) :
    (global_meter_provider s).1.binding = some (global_meter_provider s).2 := by
  rcases hb : s.binding with _ | a
  · simp [global_meter_provider, hb]
  · rw [global_meter_provider_of_some s a hb]
    exact hb

theorem global_nextAddr_gt (s : GlobalState) (hwf : WFb s = true) :
    (global_meter_provider s).2 < (global_meter_provider s).1.nextAddr := by
  rcases hb : s.binding with _ | a
  · simp [global_meter_provider, hb]
  · rw [global_meter_provider_of_some s a hb]
    unfold WFb at hwf
    simp only [hb, Bool.and_eq_true] at hwf
    exact lookup_isSome_lt s.heap s.nextAddr a hwf.1 hwf.2

theorem meter_provider_fst (s : GlobalState) :
    (meter_provider s).1 = (global_meter_provider s).1 := by
  unfold meter_provider
  cases hp : (global_meter_provider s).1.poisoned <;> simp [hp]

theorem meter_provider_ok (s : GlobalState) (hp : s.poisoned = false) :
    meter_provider s =
      ((global_meter_provider s).1, Except.ok (global_meter_provider s).2) := by
  unfold meter_provider
  simp [global_meter_provider_poisoned, hp]

theorem set_meter_provider_not_poisoned (P : MeterProvider) (s : GlobalState)
    (hp : s.poisoned = false) :
    (set_meter_provider P s).1 =
      ⟨((global_meter_provider s).1.nextAddr, P) :: (global_meter_provider s).1.heap,
        (global_meter_provider s).1.nextAddr + 1,
        some (global_meter_provider s).1.nextAddr, false⟩ := by
  unfold set_meter_provider
  have hpp : (global_meter_provider s).1.poisoned = false := by
    rw [global_meter_provider_poisoned]
    exact hp
  simp [hpp]

theorem meter_after_set (P : MeterProvider) (t : GlobalState) (name : String)
    (hp : t.poisoned = false) :
    meter name (set_meter_provider P t).1 =
      ((set_meter_provider P t).1, Except.ok (P.meterFn name)) := by
  rw [set_meter_provider_not_poisoned P t hp]
  simp [meter, meter_provider, global_meter_provider, derefD, deref, lookup_cons_self]

theorem meter_with_scope_after_set (P : MeterProvider) (t : GlobalState)
    (scope : InstrumentationScope) (hp : t.poisoned = false) :
    meter_with_scope scope (set_meter_provider P t).1 =
      ((set_meter_provider P t).1, Except.ok (P.meterWithScopeFn scope)) := by
  rw [set_meter_provider_not_poisoned P t hp]
  simp [meter_with_scope, meter_provider, global_meter_provider, derefD, deref,
    lookup_cons_self]

/-! ## Claim theorems -/

/-- Claim C2: before any `set_meter_provider` call, the global binding is
lazily initialized, on first access, to a handle wrapping the no-op provider;
an already-initialized binding is never re-initialized (so initialization
happens exactly once); and `meter name` succeeds (returns `Except.ok`, no
panic) with a meter produced by the no-op provider. -/
theorem lazy_init_to_noop (s : GlobalState) (name : String)
    (hb : s.binding = none) (hp : s.poisoned = false) :
    ((global_meter_provider s).1.binding = some s.nextAddr ∧
      deref (global_meter_provider s).1 s.nextAddr = some NoopMeterProvider) ∧
    (∀ t : GlobalState, ∀ a : Nat, t.binding = some a →
      global_meter_provider t = (t, a)) ∧
    meter name s =
      ((global_meter_provider s).1, Except.ok (NoopMeterProvider.meterFn name)) := by
  refine ⟨⟨by simp [global_meter_provider, hb], ?_⟩, ?_, ?_⟩
  · simp [global_meter_provider, hb, deref, lookup_cons_self]
  · intro t a ht
    exact global_meter_provider_of_some t a ht
  · simp [meter, meter_provider, global_meter_provider, hb, hp, derefD, deref,
      lookup_cons_self]

/-- Witness for C2 at the process-start state and the name of property P1. -/
theorem lazy_init_to_noop_witness :
    initialState.binding = none ∧ initialState.poisoned = false ∧
    (((global_meter_provider initialState).1.binding = some initialState.nextAddr ∧
      deref (global_meter_provider initialState).1 initialState.nextAddr =
        some NoopMeterProvider) ∧
    (∀ t : GlobalState, ∀ a : Nat, t.binding = some a →
      global_meter_provider t = (t, a)) ∧
    meter "x" initialState =
      ((global_meter_provider initialState).1,
        Except.ok (NoopMeterProvider.meterFn "x"))) :=
  ⟨rfl, rfl, lazy_init_to_noop initialState "x" rfl rfl⟩

/-- Claim C4: when the lock is poisoned, `set_meter_provider` does not panic
and does not retry: the call returns normally with the state completely
unchanged (in particular the stored handle is unchanged) and emits the
error-level `MeterProvider.GlobalSetFailed` diagnostic. -/
theorem set_on_poisoned_lock (P : MeterProvider) (s : GlobalState) (a : Nat)
    (hb : s.binding = some a) (hp : s.poisoned = true) :
    set_meter_provider P s =
      (s, LogEvent.error "MeterProvider.GlobalSetFailed"
        "Global meter provider is not set due to lock poison. Meters created using global::meter() or global::meter_with_scope() will not function.") := by
  simp [set_meter_provider, global_meter_provider, hb, hp]

/-- Witness for C4 at a concrete initialized poisoned state. -/
theorem set_on_poisoned_lock_witness :
    poisonedState.binding = some 0 ∧ poisonedState.poisoned = true ∧
    set_meter_provider testProvider poisonedState =
      (poisonedState, LogEvent.error "MeterProvider.GlobalSetFailed"
        "Global meter provider is not set due to lock poison. Meters created using global::meter() or global::meter_with_scope() will not function.") :=
  ⟨rfl, rfl, set_on_poisoned_lock testProvider poisonedState 0 rfl rfl⟩

/-- Claim C5: on a poisoned lock, `meter_provider` panics with the descriptive
message "GLOBAL_METER_PROVIDER RwLock poisoned" (modelled as `Except.error` of
that message) and returns no handle; on a non-poisoned lock it returns a clone
of the currently stored handle (the same address the binding holds). -/
theorem meter_provider_read_policy (s : GlobalState) (a : Nat)
    (hb : s.binding = some a) :
    (s.poisoned = true →
      meter_provider s = (s, Except.error "GLOBAL_METER_PROVIDER RwLock poisoned")) ∧
    (s.poisoned = false → meter_provider s = (s, Except.ok a)) := by
  constructor
  · intro hp
    simp [meter_provider, global_meter_provider, hb, hp]
  · intro hp
    simp [meter_provider, global_meter_provider, hb, hp]

/-- Witness for C5 at a concrete initialized state (the poisoned branch is
exercised at `poisonedState` by the conjunct applied there). -/
theorem meter_provider_read_policy_witness :
    poisonedState.binding = some 0 ∧
    meter_provider poisonedState =
      (poisonedState, Except.error "GLOBAL_METER_PROVIDER RwLock poisoned") ∧
    readyState.binding = some 0 ∧
    meter_provider readyState = (readyState, Except.ok 0) :=
  ⟨rfl, (meter_provider_read_policy poisonedState 0 rfl).1 rfl,
   rfl, (meter_provider_read_policy readyState 0 rfl).2 rfl⟩

/-- Claim C6: for every name, including the empty string, and every state,
`meter name` equals the spec-side composition `provider().meter(name)`
(`meter_spec`), which passes the name to the current provider with no
validation or transformation. -/
theorem meter_refines_spec (name : String) (s : GlobalState) :
    meter name s = meter_spec name s := by
  unfold meter meter_spec
  rcases h : meter_provider s with ⟨s1, r⟩
  cases r <;> simp [Except.map]

/-- Claim C7: for every instrumentation scope and every state,
`meter_with_scope scope` equals the spec-side composition
`provider().meter_with_scope(scope)` (`meter_with_scope_spec`), which passes
the scope value to the current provider unmodified. -/
theorem meter_with_scope_refines_spec (scope : InstrumentationScope)
    (s : GlobalState) :
    meter_with_scope scope s = meter_with_scope_spec scope s := by
  unfold meter_with_scope meter_with_scope_spec
  rcases h : meter_provider s with ⟨s1, r⟩
  cases r <;> simp [Except.map]

/-- Claim C9: on an initialized state, `meter_provider`, `meter` and
`meter_with_scope` leave the global state (binding, heap, poison flag)
completely unchanged — only `set_meter_provider` swaps the stored handle —
and on a non-poisoned lock `meter_provider` returns a clone of the stored
handle: the very address the binding holds, with the provider it points to
untouched in the heap. -/
theorem readers_do_not_mutate (s : GlobalState) (a : Nat) (name : String)
    (scope : InstrumentationScope) (hb : s.binding = some a) :
    (meter_provider s).1 = s ∧ (meter name s).1 = s ∧
    (meter_with_scope scope s).1 = s ∧
    (s.poisoned = false → (meter_provider s).2 = Except.ok a) := by
  have hmp1 : (meter_provider s).1 = s := by
    unfold meter_provider
    rw [global_meter_provider_of_some s a hb]
    by_cases hp : s.poisoned <;> simp [hp]
  refine ⟨hmp1, ?_, ?_, ?_⟩
  · unfold meter
    rcases h : meter_provider s with ⟨s1, r⟩
    have : s1 = s := by rw [← hmp1, h]
    cases r <;> simp [this]
  · unfold meter_with_scope
    rcases h : meter_provider s with ⟨s1, r⟩
    have : s1 = s := by rw [← hmp1, h]
    cases r <;> simp [this]
  · intro hp
    unfold meter_provider
    rw [global_meter_provider_of_some s a hb]
    simp [hp]

/-- Witness for C9 at a concrete initialized state. -/
theorem readers_do_not_mutate_witness :
    readyState.binding = some 0 ∧
    ((meter_provider readyState).1 = readyState ∧
      (meter "x" readyState).1 = readyState ∧
      (meter_with_scope ⟨"io.opentelemetry", some "0.17",
        some "https://opentelemetry.io/schema/1.2.0",
        [("key", "value")]⟩ readyState).1 = readyState ∧
      (readyState.poisoned = false →
        (meter_provider readyState).2 = Except.ok 0)) :=
  ⟨rfl, readers_do_not_mutate readyState 0 "x"
    ⟨"io.opentelemetry", some "0.17",
      some "https://opentelemetry.io/schema/1.2.0", [("key", "value")]⟩ rfl⟩

/-- Claim C1: after `set_meter_provider P` completes on a non-poisoned lock,
the global binding holds a new shared handle (an address that was not the
bound one before) wrapping `P`, and a subsequent `meter name` call delegates
meter creation to `P`, not to any earlier provider. -/
theorem set_takes_effect (P : MeterProvider) (s : GlobalState) (name : String)
    (hp : s.poisoned = false) (hwf : WFb s = true) :
    ∃ a, (set_meter_provider P s).1.binding = some a ∧
      deref (set_meter_provider P s).1 a = some P ∧
      s.binding ≠ some a ∧
      meter name (set_meter_provider P s).1 =
        ((set_meter_provider P s).1, Except.ok (P.meterFn name)) := by
  refine ⟨(global_meter_provider s).1.nextAddr, ?_, ?_, ?_, ?_⟩
  · rw [set_meter_provider_not_poisoned P s hp]
  · rw [set_meter_provider_not_poisoned P s hp]
    simp [deref, lookup_cons_self]
  · intro hcon
    have h1 : global_meter_provider s = (s, (global_meter_provider s).1.nextAddr) :=
      global_meter_provider_of_some s _ hcon
    have h2 := global_nextAddr_gt s hwf
    have h3 : (global_meter_provider s).1 = s := by rw [h1]
    rw [h3] at h1 h2
    rw [h1] at h2
    simp at h2
  · exact meter_after_set P s name hp

/-- Witness for C1 at the process-start state and a concrete provider. -/
theorem set_takes_effect_witness :
    initialState.poisoned = false ∧ WFb initialState = true ∧
    (∃ a, (set_meter_provider testProvider initialState).1.binding = some a ∧
      deref (set_meter_provider testProvider initialState).1 a = some testProvider ∧
      initialState.binding ≠ some a ∧
      meter "x" (set_meter_provider testProvider initialState).1 =
        ((set_meter_provider testProvider initialState).1,
          Except.ok (testProvider.meterFn "x"))) :=
  ⟨rfl, rfl, set_takes_effect testProvider initialState "x" rfl rfl⟩

/-- Claim C3: from the uninitialized state or from any state already holding
a valid handle, every public operation leaves the global binding holding
exactly one valid provider handle, so no caller ever observes a
"no provider configured" or uninitialized state. -/
theorem registry_always_holds_provider (s : GlobalState) (P : MeterProvider)
    (name : String) (scope : InstrumentationScope)
    (h : s.binding = none ∨ holdsProvider s = true) :
    holdsProvider (global_meter_provider s).1 = true ∧
    holdsProvider (set_meter_provider P s).1 = true ∧
    holdsProvider (meter_provider s).1 = true ∧
    holdsProvider (meter name s).1 = true ∧
    holdsProvider (meter_with_scope scope s).1 = true := by
  have hgp : holdsProvider (global_meter_provider s).1 = true := by
    rcases h with hb | hh
    · simp [global_meter_provider, hb, holdsProvider, lookup_cons_self]
    · rcases hb2 : s.binding with _ | a
      · unfold holdsProvider at hh
        simp [hb2] at hh
      · rw [global_meter_provider_of_some s a hb2]
        exact hh
  have hmpr : holdsProvider (meter_provider s).1 = true := by
    rw [meter_provider_fst]
    exact hgp
  refine ⟨hgp, ?_, hmpr, ?_, ?_⟩
  · unfold set_meter_provider
    cases hp : (global_meter_provider s).1.poisoned
    · simp only [hp]
      simp [holdsProvider, lookup_cons_self]
    · simp only [hp]
      simpa using hgp
  · unfold meter
    rcases hm : meter_provider s with ⟨s1, r⟩
    have hs1 : s1 = (meter_provider s).1 := by rw [hm]
    cases r
    · simp only []
      rw [hs1]
      exact hmpr
    · simp only []
      rw [hs1]
      exact hmpr
  · unfold meter_with_scope
    rcases hm : meter_provider s with ⟨s1, r⟩
    have hs1 : s1 = (meter_provider s).1 := by rw [hm]
    cases r
    · simp only []
      rw [hs1]
      exact hmpr
    · simp only []
      rw [hs1]
      exact hmpr

/-- Witness for C3 at the process-start state. -/
theorem registry_always_holds_provider_witness :
    (initialState.binding = none ∨ holdsProvider initialState = true) ∧
    (holdsProvider (global_meter_provider initialState).1 = true ∧
    holdsProvider (set_meter_provider testProvider initialState).1 = true ∧
    holdsProvider (meter_provider initialState).1 = true ∧
    holdsProvider (meter "x" initialState).1 = true ∧
    holdsProvider (meter_with_scope ⟨"io.opentelemetry", some "0.17",
      some "https://opentelemetry.io/schema/1.2.0",
      [("key", "value")]⟩ initialState).1 = true) :=
  ⟨Or.inl rfl, registry_always_holds_provider initialState testProvider "x"
    ⟨"io.opentelemetry", some "0.17",
      some "https://opentelemetry.io/schema/1.2.0", [("key", "value")]⟩
    (Or.inl rfl)⟩

/-- The state after two completed `set_meter_provider` calls in order. -/
def afterTwoSets (P1 P2 : MeterProvider) (s : GlobalState) : GlobalState :=
  (set_meter_provider P2 (set_meter_provider P1 s).1).1

/-- Claim C8: after `set_meter_provider P1` then `set_meter_provider P2`
complete in that order on a non-poisoned lock, every subsequent
`meter_provider` / `meter` / `meter_with_scope` call observes `P2` — the
returned handle dereferences to `P2`, and when the two providers differ it
never dereferences to `P1`. -/
theorem last_writer_wins (P1 P2 : MeterProvider) (s : GlobalState)
    (name : String) (scope : InstrumentationScope) (hp : s.poisoned = false) :
    ∃ a, meter_provider (afterTwoSets P1 P2 s) =
        (afterTwoSets P1 P2 s, Except.ok a) ∧
      derefD (afterTwoSets P1 P2 s) a = P2 ∧
      (P1 ≠ P2 → derefD (afterTwoSets P1 P2 s) a ≠ P1) ∧
      meter name (afterTwoSets P1 P2 s) =
        (afterTwoSets P1 P2 s, Except.ok (P2.meterFn name)) ∧
      meter_with_scope scope (afterTwoSets P1 P2 s) =
        (afterTwoSets P1 P2 s, Except.ok (P2.meterWithScopeFn scope)) := by
  have hp1 : (set_meter_provider P1 s).1.poisoned = false := by
    rw [set_meter_provider_not_poisoned P1 s hp]
  have hset2 := set_meter_provider_not_poisoned P2 (set_meter_provider P1 s).1 hp1
  refine ⟨(global_meter_provider (set_meter_provider P1 s).1).1.nextAddr,
    ?_, ?_, ?_, ?_, ?_⟩
  · unfold afterTwoSets
    rw [hset2]
    simp [meter_provider, global_meter_provider]
  · unfold afterTwoSets
    rw [hset2]
    simp [derefD, deref, lookup_cons_self]
  · intro hne hcon
    apply hne
    have hP2 : derefD (afterTwoSets P1 P2 s)
        (global_meter_provider (set_meter_provider P1 s).1).1.nextAddr = P2 := by
      unfold afterTwoSets
      rw [hset2]
      simp [derefD, deref, lookup_cons_self]
    rw [← hcon, hP2]
  · exact meter_after_set P2 (set_meter_provider P1 s).1 name hp1
  · exact meter_with_scope_after_set P2 (set_meter_provider P1 s).1 scope hp1

/-- Witness for C8 at the process-start state with two distinguishable
concrete providers. -/
theorem last_writer_wins_witness :
    initialState.poisoned = false ∧
    (∃ a, meter_provider (afterTwoSets testProvider testProvider2 initialState) =
        (afterTwoSets testProvider testProvider2 initialState, Except.ok a) ∧
      derefD (afterTwoSets testProvider testProvider2 initialState) a =
        testProvider2 ∧
      (testProvider ≠ testProvider2 →
        derefD (afterTwoSets testProvider testProvider2 initialState) a ≠
          testProvider) ∧
      meter "x" (afterTwoSets testProvider testProvider2 initialState) =
        (afterTwoSets testProvider testProvider2 initialState,
          Except.ok (testProvider2.meterFn "x")) ∧
      meter_with_scope ⟨"io.opentelemetry", some "0.17",
          some "https://opentelemetry.io/schema/1.2.0", [("key", "value")]⟩
          (afterTwoSets testProvider testProvider2 initialState) =
        (afterTwoSets testProvider testProvider2 initialState,
          Except.ok (testProvider2.meterWithScopeFn
            ⟨"io.opentelemetry", some "0.17",
              some "https://opentelemetry.io/schema/1.2.0",
              [("key", "value")]⟩))) :=
  ⟨rfl, last_writer_wins testProvider testProvider2 initialState "x"
    ⟨"io.opentelemetry", some "0.17",
      some "https://opentelemetry.io/schema/1.2.0", [("key", "value")]⟩ rfl⟩

/-- Claim C10: a handle previously returned by `meter_provider` is unaffected
by a later `set_meter_provider P`: the replacement installs a freshly
allocated handle into the binding, so the old handle still dereferences to
the provider it referred to when it was cloned, and the binding no longer
holds the old address. -/
theorem old_clone_unaffected (s : GlobalState) (P : MeterProvider) (a : Nat)
    (hwf : WFb s = true) (hp : s.poisoned = false)
    (h : (meter_provider s).2 = Except.ok a) :
    deref (set_meter_provider P (meter_provider s).1).1 a =
      deref (meter_provider s).1 a ∧
    (set_meter_provider P (meter_provider s).1).1.binding ≠ some a := by
  have ha : a = (global_meter_provider s).2 := by
    rw [meter_provider_ok s hp] at h
    simpa using h.symm
  have hlt : a < (global_meter_provider s).1.nextAddr := by
    rw [ha]
    exact global_nextAddr_gt s hwf
  have hpp : (global_meter_provider s).1.poisoned = false := by
    rw [global_meter_provider_poisoned]
    exact hp
  have hset := set_meter_provider_not_poisoned P (global_meter_provider s).1 hpp
  have hgg : global_meter_provider (global_meter_provider s).1 =
      ((global_meter_provider s).1, (global_meter_provider s).2) :=
    global_meter_provider_of_some _ _ (global_binding_fst s)
  rw [meter_provider_fst, hset, hgg]
  constructor
  · simp only [deref]
    exact lookup_cons_of_ne P _ a _ (Nat.ne_of_lt hlt)
  · intro hcon
    simp only [Option.some.injEq] at hcon
    omega

/-- Witness for C10 at a concrete reachable initialized state. -/
theorem old_clone_unaffected_witness :
    WFb readyState = true ∧ readyState.poisoned = false ∧
    (meter_provider readyState).2 = Except.ok 0 ∧
    (deref (set_meter_provider testProvider (meter_provider readyState).1).1 0 =
      deref (meter_provider readyState).1 0 ∧
    (set_meter_provider testProvider (meter_provider readyState).1).1.binding ≠
      some 0) :=
  ⟨rfl, rfl, rfl, old_clone_unaffected readyState testProvider 0 rfl rfl rfl⟩

end OTelGlobal
